import Mathlib

/-
Verification of the wexample python-api gateway core.

Shallow embedding of:
  src/wexample_api/common/http_request_payload.py  (HttpRequestPayload)
  src/wexample_helpers_api/common/abstract_gateway.py  (AbstractGateway)

Python strings are embedded as `List Char` (named `Str`), so that the
character-level slicing/stripping operations of the source translate
directly.  Python dicts whose iteration order matters (header mappings)
are embedded as ordered association lists with dict-style update
semantics.  Wall-clock time is embedded as ℚ, with `time.sleep d`
idealised as advancing the clock by exactly `d`.  The HTTP transport
(`requests.request`) is an oracle argument: it either yields a response
object or a transport exception, exactly the boundary the spec fixes for
the transport collaborator.  The diagnostic sink (`self.io`) is embedded
as a trace of emitted events.  Python control flow that raises is
embedded with an explicit result type (`PyResult`).
-/

/-- A Python string, embedded character by character. -/
abbrev Str := List Char

/-- Python whitespace as tested by `str.strip` / `str.isspace` (ASCII range,
which is the domain of HTTP header values handled by the source). -/
def isPySpace (c : Char) : Bool :=
  c == ' ' || c == '\t' || c == '\n' || c == '\r' || c == '\x0b' || c == '\x0c'

/-- Python `s.lstrip(chars)` for a character predicate. -/
def pyLstrip (p : Char → Bool) (s : Str) : Str := s.dropWhile p

/-- Python `s.rstrip(chars)` for a character predicate. -/
def pyRstrip (p : Char → Bool) (s : Str) : Str := (s.reverse.dropWhile p).reverse

/-- Python `s.strip()` (no argument: strips whitespace from both ends). -/
def pyStrip (s : Str) : Str := pyRstrip isPySpace (pyLstrip isPySpace s)

/-- Python `s.lower()` (ASCII case folding, the range exercised by the source). -/
def pyLower (s : Str) : Str := s.map Char.toLower

/-- Python `base_url.rstrip('/')`. -/
def rstripSlash (s : Str) : Str := pyRstrip (fun c => c == '/') s

/-- Python `endpoint.lstrip('/')`. -/
def lstripSlash (s : Str) : Str := pyLstrip (fun c => c == '/') s

/-- Decimal rendering of a number, used for Python f-string interpolation. -/
def natStr (n : Nat) : Str := (Nat.repr n).data

/-- Modelled from the spec: the `HttpMethod` enum lives in an `enums.http`
module that is not among the source files; the spec's data model lists the
members `GET, POST, PUT, PATCH, DELETE`. -/
inductive HttpMethod
  | GET
  | POST
  | PUT
  | PATCH
  | DELETE
deriving DecidableEq

/-- Display form of a method member, as Python's f-string formatting of the
enum renders it. -/
def methodName : HttpMethod → Str
  | .GET => "HttpMethod.GET".data
  | .POST => "HttpMethod.POST".data
  | .PUT => "HttpMethod.PUT".data
  | .PATCH => "HttpMethod.PATCH".data
  | .DELETE => "HttpMethod.DELETE".data

/-- The Python value passed for `expected_status_codes`: `int | list[int] | None`. -/
inductive StatusArg
  | int (n : Nat)
  | list (l : List Nat)
  | noneArg
deriving DecidableEq

/-- A request body value: `dict[str, Any] | bytes` (the `None` case is an
`Option` around this type).  Dict values are kept as strings; only presence
and truthiness of the body matter to the gateway. -/
inductive PyData
  | dict (entries : List (Str × Str))
  | bytes (n : Nat)
deriving DecidableEq

/-- Python truthiness of a `dict | bytes | None` body value. -/
def pyDataTruthy : Option PyData → Bool
  | none => false
  | some (.dict entries) => !entries.isEmpty
  | some (.bytes n) => n != 0

/-- Python truthiness of the `files` argument (`dict | list | None`). -/
def filesTruthy : Option (List Str) → Bool
  | none => false
  | some fs => !fs.isEmpty

/-- Python dict item assignment `d[k] = v` on an ordered association list:
an existing key keeps its position, a new key is appended. -/
def dictSet (d : List (Str × Str)) (k v : Str) : List (Str × Str) :=
  if d.any (fun p => p.1 == k) then d.map (fun p => if p.1 == k then (k, v) else p)
  else d ++ [(k, v)]

/-- Python dict merge `{**d1, **d2}`: keys of `d1` first (values overridden
by `d2` where both have the key, exact-key match), then `d2`-only keys. -/
def dictMerge (d1 d2 : List (Str × Str)) : List (Str × Str) :=
  d2.foldl (fun acc p => dictSet acc p.1 p.2) d1

/-- Python `d.pop(k, None)` restricted to its effect on the dict: removes the
exact key `k` when present. -/
def dictPop (d : List (Str × Str)) (k : Str) : List (Str × Str) :=
  d.filter (fun p => p.1 != k)

/-- Python `d.get(k)` on an ordered association list. -/
def lookupKey (d : List (Str × Str)) (k : Str) : Option Str :=
  (d.find? (fun p => p.1 == k)).map (fun p => p.2)

/-- Modelled from the spec: the `Header` enum (module
`wexample_helpers_api.enums.http`) is not among the source files; per the
spec's Content-Type negotiation its member used here carries the standard
header name `Content-Type`. -/
def Header.CONTENT_TYPE : Str := "Content-Type".data

/-- Modelled from the spec: the `ContentType` enum is not among the source
files; the spec names form-urlencoded, octet-stream and multipart bodies,
whose standard MIME names are used as the enum values. -/
def ContentType.FORM_URLENCODED : Str := "application/x-www-form-urlencoded".data

/-- Modelled from the spec: standard MIME name of the octet-stream content type. -/
def ContentType.OCTET_STREAM : Str := "application/octet-stream".data

/-- Modelled from the spec: standard MIME name of the multipart content type. -/
def ContentType.MULTIPART : Str := "multipart/form-data".data

/-- `HttpRequestPayload` (http_request_payload.py): the value object
describing one outbound request. -/
structure HttpRequestPayload where
  url : Str
  method : HttpMethod
  data : Option PyData
  query_params : Option (List (Str × Str))
  headers : Option (List (Str × Str))
  call_origin : Option Str
  expected_status_codes : Option (List Nat)
deriving DecidableEq

/-- `HttpRequestPayload.from_endpoint`: joins `base_url` and `endpoint`
(`if base_url:` is Python truthiness, so `None` and the empty string both
take the verbatim-endpoint branch), and normalises an `int` expected-status
argument to a one-element list, keeping `None` as `None`. -/
def HttpRequestPayload.from_endpoint
    (base_url : Option Str) (endpoint : Str) (method : HttpMethod)
    (data : Option PyData) (query_params : Option (List (Str × Str)))
    (headers : Option (List (Str × Str))) (call_origin : Option Str)
    (expected_status_codes : StatusArg) : HttpRequestPayload :=
  let url :=
    match base_url with
    | some b => if b.isEmpty then endpoint else rstripSlash b ++ '/' :: lstripSlash endpoint
    | none => endpoint
  let codes :=
    match expected_status_codes with
    | .int n => some [n]
    | .list l => some l
    | .noneArg => none
  ⟨url, method, data, query_params, headers, call_origin, codes⟩

/-- The response object of the transport collaborator, at the boundary the
spec fixes: a status code, the body text, and the outcome of `.json()`
(`none` embeds a parse that raises). -/
inductive PyJson
  | dict (entries : List (Str × Str))
  | nonDict
deriving DecidableEq

/-- A received HTTP response. -/
structure Response where
  status_code : Nat
  text : Str
  jsonResult : Option PyJson
deriving DecidableEq

/-- An event emitted through the diagnostic sink (`self.io`). -/
inductive IoEvent
  | log (message : Str)
  | debug (message : Str)
  | properties (title : Str)
  | error (message : Str) (fatal : Bool)
deriving DecidableEq

/-- An exception escaping a call: `GatewayError`, the `TypeError` raised by a
membership test on `None`, or process termination by a fatal error report. -/
inductive PyExc
  | gatewayError (message : Str)
  | typeError
  | fatalExit (message : Str)
deriving DecidableEq

/-- Result of running a Python call: a value, or a raised exception. -/
inductive PyResult (α : Type)
  | ok (value : α)
  | raised (e : PyExc)
deriving DecidableEq

/-- The outcome of `requests.request(**kwargs)`: a response, or a
`requests.exceptions.RequestException` with a message. -/
inductive TransportOutcome
  | ok (response : Response)
  | exc (message : Str)
deriving DecidableEq

/-- The gateway's mutable state (`AbstractGateway` fields).  `last_exception`
holds the stored `GatewayError`'s message (`none` = no error recorded). -/
structure GatewayState where
  base_url : Option Str
  connected : Bool
  default_headers : List (Str × Str)
  last_exception : Option Str
  last_request_time : Option ℚ
  quiet : Bool
  rate_limit_delay : ℚ
  timeout : Nat
deriving DecidableEq

/-- `AbstractGateway.has_error`: true iff `last_exception` is set. -/
def has_error (g : GatewayState) : Bool := g.last_exception.isSome

/-- `AbstractGateway._extract_error_message`: start from `HTTP <status>`;
on a successful `.json()` parse that yields a mapping, take `message`, else
`error`, else keep the default; on a parse failure, take the raw text unless
it is empty. -/
def _extract_error_message (response : Response) : Str :=
  let message := "HTTP ".data ++ natStr response.status_code
  match response.jsonResult with
  | some (PyJson.dict d) =>
    match lookupKey d "message".data with
    | some v => v
    | none =>
      match lookupKey d "error".data with
      | some v => v
      | none => message
  | some PyJson.nonDict => message
  | none => if response.text.isEmpty then message else response.text

/-- `AbstractGateway._get_header_value`: `if not headers` covers both `None`
and the empty dict; then the first value whose key matches case-insensitively
is cut at the first `;`, stripped, lower-cased, and an empty result becomes
`None`. -/
def _get_header_value (headers : Option (List (Str × Str))) (name : Str) : Option Str :=
  match headers with
  | none => none
  | some hs =>
    if hs.isEmpty then none
    else
      match hs.find? (fun p => pyLower p.1 == pyLower name) with
      | none => none
      | some p =>
        let v := pyLower (pyStrip (p.2.takeWhile (fun c => c != ';')))
        if v.isEmpty then none else some v

/-- `AbstractGateway._handle_rate_limiting`: sleeps when the elapsed time
since `last_request_time` is below `rate_limit_delay`, then stamps
`last_request_time` with the post-sleep clock.  Returns the new state and
the slept duration; `time.sleep d` is idealised as advancing the clock by
exactly `d`. -/
def _handle_rate_limiting (g : GatewayState) (now : ℚ) : GatewayState × ℚ :=
  match g.last_request_time with
  | some t =>
    let elapsed := now - t
    if elapsed < g.rate_limit_delay then
      let sleepFor := g.rate_limit_delay - elapsed
      ({ g with last_request_time := some (now + sleepFor) }, sleepFor)
    else
      ({ g with last_request_time := some now }, 0)
  | none => ({ g with last_request_time := some now }, 0)

/-- The debug line `f"{method} | {status} -> {url}"` of `handle_api_response`. -/
def debugLine (p : HttpRequestPayload) (r : Response) : Str :=
  methodName p.method ++ " | ".data ++ natStr r.status_code ++ " -> ".data ++ p.url

/-- Result of `handle_api_response`: updated state, emitted diagnostic
events, and the returned value or raised exception. -/
structure HandleResult where
  state : GatewayState
  events : List IoEvent
  result : PyResult (Option Response)
deriving DecidableEq

/-- `AbstractGateway.handle_api_response`.  Stores the exception, resolves
quiet mode (`self.quiet` only when the argument is `None`), dumps request
details / the debug line unless quiet, tests the status against the
payload's `expected_status_codes` (a membership test that raises `TypeError`
when that field is `None`), and reports errors through the sink; a fatal
report terminates the process. -/
def handle_api_response (g : GatewayState) (response : Option Response)
    (request_context : HttpRequestPayload) (exception : Option Str)
    (fatal_on_error : Bool) (quiet : Option Bool) : HandleResult :=
  let g := { g with last_exception := exception }
  let is_quiet := quiet.getD g.quiet
  match response with
  | none =>
    let ev1 := if is_quiet then [] else [IoEvent.properties "Request Details".data]
    match exception with
    | some msg =>
      if fatal_on_error then ⟨g, ev1 ++ [.error msg true], .raised (.fatalExit msg)⟩
      else ⟨g, ev1 ++ [.error msg false], .ok none⟩
    | none => ⟨g, ev1, .ok none⟩
  | some r =>
    let ev1 := if is_quiet then [] else [IoEvent.debug (debugLine request_context r)]
    match request_context.expected_status_codes with
    | none => ⟨g, ev1, .raised .typeError⟩
    | some codes =>
      if r.status_code ∈ codes then ⟨g, ev1, .ok (some r)⟩
      else
        let ev2 := if is_quiet then [] else [IoEvent.properties "Request Details".data]
        let msg :=
          match exception with
          | some m => m
          | none => _extract_error_message r
        if fatal_on_error then ⟨g, ev1 ++ ev2 ++ [.error msg true], .raised (.fatalExit msg)⟩
        else ⟨g, ev1 ++ ev2 ++ [.error msg false], .ok (some r)⟩

/-- The `io.log` calls of `make_request` announcing the outgoing body:
one line for a binary payload, one for a dict payload, none without data. -/
def sendLogEvents (d : Option PyData) : List IoEvent :=
  match d with
  | some (PyData.bytes n) =>
    [IoEvent.log ("Sending binary payload (".data ++ natStr n ++ " bytes)".data)]
  | some (PyData.dict _) => [IoEvent.log "Sending dict payload".data]
  | none => []

/-- The arguments of `make_request`, with the source's defaults. -/
structure MakeRequestArgs where
  endpoint : Str
  method : HttpMethod := .GET
  data : Option PyData := none
  query_params : Option (List (Str × Str)) := none
  headers : Option (List (Str × Str)) := none
  files : Option (List Str) := none
  call_origin : Option Str := none
  expected_status_codes : StatusArg := .noneArg
  fatal_if_unexpected : Bool := false
  quiet : Bool := false
  stream : Bool := false
  timeout : Option Nat := none
  raise_exceptions : Bool := false
deriving DecidableEq

/-- How the body is attached to the dispatched request: `files=` with form
fields, `data=` raw/form-encoded, or `json=`. -/
inductive BodyEncoding
  | multipart (dataField : PyData) (files : List Str)
  | raw (dataField : Option PyData)
  | jsonBody (dataField : Option PyData)
deriving DecidableEq

/-- The keyword arguments handed to `requests.request`. -/
structure RequestKwargs where
  method : HttpMethod
  url : Str
  params : Option (List (Str × Str))
  headers : List (Str × Str)
  timeout : Nat
  stream : Bool
  body : BodyEncoding
deriving DecidableEq

/-- Python `timeout or self.timeout` (so a `0` override also falls back). -/
def pyTimeoutOr : Option Nat → Nat → Nat
  | some t, d => if t != 0 then t else d
  | none, d => d

/-- The expected-status set `make_request` computes for its own check:
`{arg}` for an int, else `set(arg or {200})` (so `None` and the empty list
both become `{200}`). -/
def computedExpected : StatusArg → List Nat
  | .int n => [n]
  | .list l => if l.isEmpty then [200] else l
  | .noneArg => [200]

/-- Python `data or {}` in the files branch of `make_request`. -/
def dataOrEmptyDict (d : Option PyData) : PyData :=
  match d with
  | some v => if pyDataTruthy (some v) then v else PyData.dict []
  | none => PyData.dict []

/-- Full outcome of one `make_request` call: final state, the diagnostic
trace, the rate-limit sleep, the kwargs handed to the transport, and the
returned value or raised exception. -/
structure MakeRequestResult where
  state : GatewayState
  events : List IoEvent
  slept : ℚ
  dispatched : RequestKwargs
  result : PyResult (Option Response)
deriving DecidableEq

/-- `AbstractGateway.make_request`, with the clock value at entry and the
transport outcome as oracle inputs.  Follows the source step by step:
payload construction with merged headers, lazy connect, rate limiting,
content-type negotiation (with the files branch popping the exact
`Content-Type` key), body-encoding selection, dispatch, wrapping of a
transport exception, the expected-status check against the set computed
from the argument, optional raising, and routing through
`handle_api_response` with `quiet` passed as the call's own flag. -/
def make_request (g : GatewayState) (args : MakeRequestArgs) (now : ℚ)
    (transport : TransportOutcome) : MakeRequestResult :=
  let mergedHeaders := dictMerge g.default_headers (match args.headers with | some h => h | none => [])
  let payload := HttpRequestPayload.from_endpoint g.base_url args.endpoint args.method
    args.data args.query_params (some mergedHeaders)
    args.call_origin args.expected_status_codes
  let g := if !g.connected then { g with connected := true } else g
  let rl := _handle_rate_limiting g now
  let g := rl.1
  let slept := rl.2
  let content_type := _get_header_value payload.headers Header.CONTENT_TYPE
  let fb := filesTruthy args.files
  let content_type := if fb then some ContentType.MULTIPART else content_type
  let payload :=
    { payload with
      headers := some (if fb then dictPop mergedHeaders Header.CONTENT_TYPE else mergedHeaders) }
  let logEvents := sendLogEvents payload.data
  let kwargs : RequestKwargs :=
    { method := payload.method
      url := payload.url
      params := payload.query_params
      headers := match payload.headers with | some h => h | none => []
      timeout := pyTimeoutOr args.timeout g.timeout
      stream := args.stream
      body :=
        if fb then
          BodyEncoding.multipart (dataOrEmptyDict args.data) (match args.files with | some fs => fs | none => [])
        else if content_type == some ContentType.FORM_URLENCODED
            || content_type == some ContentType.OCTET_STREAM then
          BodyEncoding.raw args.data
        else
          BodyEncoding.jsonBody args.data }
  match transport with
  | .exc m =>
    let gwMsg := "Request failed: ".data ++ m
    if args.raise_exceptions then
      ⟨g, logEvents, slept, kwargs, .raised (.gatewayError gwMsg)⟩
    else
      let h := handle_api_response g none payload (some gwMsg) args.fatal_if_unexpected (some args.quiet)
      ⟨h.state, logEvents ++ h.events, slept, kwargs, h.result⟩
  | .ok r =>
    let expected := computedExpected args.expected_status_codes
    if r.status_code ∈ expected then
      let h := handle_api_response g (some r) payload none args.fatal_if_unexpected (some args.quiet)
      ⟨h.state, logEvents ++ h.events, slept, kwargs, h.result⟩
    else
      let msg := _extract_error_message r
      if args.raise_exceptions then
        ⟨g, logEvents, slept, kwargs, .raised (.gatewayError msg)⟩
      else
        let h := handle_api_response g (some r) payload (some msg) args.fatal_if_unexpected (some args.quiet)
        ⟨h.state, logEvents ++ h.events, slept, kwargs, h.result⟩

/-- `AbstractGateway.check_status_code`: one `make_request` to the empty
endpoint in quiet mode; the boolean is `result is not None` (a raised
exception propagates instead of producing a boolean). -/
def check_status_code (g : GatewayState) (expected_status_codes : StatusArg)
    (now : ℚ) (transport : TransportOutcome) : MakeRequestResult × PyResult Bool :=
  let res := make_request g
    { endpoint := [], expected_status_codes := expected_status_codes, quiet := true }
    now transport
  (res,
    match res.result with
    | .ok v => .ok v.isSome
    | .raised e => .raised e)

/-- The url-join rule in the spec's words: with `base_url` present, strip its
trailing slashes, add one `/`, and append the endpoint with leading slashes
stripped; with `base_url` absent, the endpoint verbatim. -/
def specJoinUrl (base_url : Option Str) (endpoint : Str) : Str :=
  match base_url with
  | some b => rstripSlash b ++ '/' :: lstripSlash endpoint
  | none => endpoint

/-- The error-message extraction rule in the spec's words: a mapping body
prefers `message`, falls back to `error`, then to `HTTP <status>`; a failed
parse falls back to the raw text, or `HTTP <status>` when the body is empty. -/
def specErrorMessage (r : Response) : Str :=
  match r.jsonResult with
  | some (PyJson.dict entries) =>
    match lookupKey entries "message".data, lookupKey entries "error".data with
    | some v, _ => v
    | none, some v => v
    | none, none => "HTTP ".data ++ natStr r.status_code
  | some PyJson.nonDict => "HTTP ".data ++ natStr r.status_code
  | none => if r.text = [] then "HTTP ".data ++ natStr r.status_code else r.text

/-- The header lookup rule in the spec's words: the first value whose key
matches case-insensitively, truncated at the first `;`, trimmed, lower-cased;
absent when no key matches or the normalised value is empty. -/
def specHeaderValue (headers : List (Str × Str)) (name : Str) : Option Str :=
  match (headers.filter (fun p => pyLower p.1 == pyLower name)).head? with
  | none => none
  | some p =>
    let v := pyLower (pyStrip (p.2.takeWhile (fun c => c != ';')))
    if v.isEmpty then none else some v

/-- The body-encoding rule in the claim's words, for a call without files:
a Content-Type naming form-urlencoded or octet-stream sends the body raw,
anything else (a missing header included) sends it JSON-encoded. -/
def specBodySelection (headers : List (Str × Str)) (d : Option PyData) : BodyEncoding :=
  match specHeaderValue headers Header.CONTENT_TYPE with
  | some ct =>
    if ct = ContentType.FORM_URLENCODED ∨ ct = ContentType.OCTET_STREAM
    then BodyEncoding.raw d
    else BodyEncoding.jsonBody d
  | none => BodyEncoding.jsonBody d

/-- Recogniser for debug events of the diagnostic trace. -/
def isDebugEvent : IoEvent → Bool
  | .debug _ => true
  | _ => false

/-- A freshly constructed gateway with the source's field defaults
(`base_url=None`, not connected, empty default headers, no recorded error,
no previous request, not quiet, 1 s rate limit, 30 s timeout). -/
def gDef : GatewayState :=
  { base_url := none, connected := false, default_headers := [], last_exception := none,
    last_request_time := none, quiet := false, rate_limit_delay := 1, timeout := 30 }

/-- A gateway constructed with `quiet=True`. -/
def gQuiet : GatewayState := { gDef with quiet := true }

/-- A gateway mid-sequence: previous request stamped at t=1, 1 s rate limit. -/
def gStamped : GatewayState := { gDef with last_request_time := some 1 }

/-- A 200 response with an empty body. -/
def r200 : Response := { status_code := 200, text := [], jsonResult := none }

/-- A 204 response with an empty body. -/
def r204 : Response := { status_code := 204, text := [], jsonResult := none }

/-- A 404 response with an empty body. -/
def r404 : Response := { status_code := 404, text := [], jsonResult := none }

/-- A 500 response with an empty body. -/
def r500 : Response := { status_code := 500, text := [], jsonResult := none }

/-- A call that sets a lower-cased `content-type` key and sends files. -/
def argsLowerCT : MakeRequestArgs :=
  { endpoint := "u".data, expected_status_codes := .int 200,
    headers := some [("content-type".data, "application/json".data)],
    files := some ["f".data] }

/-- A call that sets the canonical `Content-Type` key and sends files. -/
def argsCanonCT : MakeRequestArgs :=
  { endpoint := "u".data, expected_status_codes := .int 200,
    headers := some [("Content-Type".data, "application/json".data)],
    files := some ["f".data] }

/-- A call that sets an oddly cased form-urlencoded Content-Type header. -/
def argsFormCT : MakeRequestArgs :=
  { endpoint := "e".data, expected_status_codes := .int 200,
    headers := some [("content-TYPE".data, " Application/x-www-form-urlencoded ; charset=UTF-8".data)] }

/-- The payload `check_status_code`-style calls build for endpoint `q` with
expected status 200. -/
def payloadQ : HttpRequestPayload :=
  HttpRequestPayload.from_endpoint none "q".data .GET none none none none (.int 200)

/-- The first element surviving `dropWhile p` does not satisfy `p`. -/
theorem head?_dropWhile_false (p : Char → Bool) (l : Str) (c : Char)
    (h : (l.dropWhile p).head? = some c) : p c = false := by
  induction l with
  | nil => simp [List.dropWhile] at h
  | cons a t ih =>
    rw [List.dropWhile_cons] at h
    by_cases hp : p a
    · exact ih (by simpa [hp] using h)
    · rw [if_neg hp] at h
      simp only [List.head?_cons, Option.some.injEq] at h
      subst h
      simpa using hp

/-- `rstripSlash` only removes trailing slashes: the input is the output
followed by some run of `/`. -/
theorem rstripSlash_decomp (s : Str) :
    ∃ k, s = rstripSlash s ++ List.replicate k '/' := by
  refine ⟨(s.reverse.takeWhile (fun c => c == '/')).length, ?_⟩
  have hsplit := List.takeWhile_append_dropWhile
    (p := fun c => c == '/') (l := s.reverse)
  have hrep : s.reverse.takeWhile (fun c => c == '/')
      = List.replicate (s.reverse.takeWhile (fun c => c == '/')).length '/' := by
    rw [List.eq_replicate_length]
    intro b hb
    have := List.mem_takeWhile_imp hb
    simpa using this
  calc s = s.reverse.reverse := (List.reverse_reverse s).symm
    _ = (s.reverse.takeWhile (fun c => c == '/') ++ s.reverse.dropWhile (fun c => c == '/')).reverse := by
        rw [hsplit]
    _ = rstripSlash s ++ (s.reverse.takeWhile (fun c => c == '/')).reverse := by
        rw [List.reverse_append]; rfl
    _ = rstripSlash s ++ List.replicate (s.reverse.takeWhile (fun c => c == '/')).length '/' := by
        rw [congrArg List.reverse hrep, List.reverse_replicate]

/-- `lstripSlash` only removes leading slashes. -/
theorem lstripSlash_decomp (s : Str) :
    ∃ m, s = List.replicate m '/' ++ lstripSlash s := by
  refine ⟨(s.takeWhile (fun c => c == '/')).length, ?_⟩
  have hsplit := List.takeWhile_append_dropWhile (p := fun c => c == '/') (l := s)
  have hrep : s.takeWhile (fun c => c == '/')
      = List.replicate (s.takeWhile (fun c => c == '/')).length '/' := by
    rw [List.eq_replicate_length]
    intro b hb
    have := List.mem_takeWhile_imp hb
    simpa using this
  conv_lhs => rw [← hsplit]
  rw [← hrep]; rfl

/-- The stripped base url does not end in a slash. -/
theorem rstripSlash_getLast (s : Str) (c : Char) (h : (rstripSlash s).getLast? = some c) :
    c ≠ '/' := by
  rw [rstripSlash, pyRstrip, List.getLast?_reverse] at h
  have := head?_dropWhile_false (fun c => c == '/') s.reverse c h
  simpa using this

/-- The stripped endpoint does not start with a slash. -/
theorem lstripSlash_head (s : Str) (c : Char) (h : (lstripSlash s).head? = some c) :
    c ≠ '/' := by
  have := head?_dropWhile_false (fun c => c == '/') s c h
  simpa using this

/-- `_get_header_value` agrees with the spec-worded lookup. -/
theorem get_header_value_eq_spec (hs : List (Str × Str)) (name : Str) :
    _get_header_value (some hs) name = specHeaderValue hs name := by
  rw [_get_header_value, specHeaderValue, List.filter_head?]
  by_cases he : hs.isEmpty
  · rw [List.isEmpty_iff] at he
    subst he
    simp
  · simp [he]

/-- Popping a key from a header dict leaves no pair under that exact key. -/
theorem dictPop_no_key (d : List (Str × Str)) (k v : Str) : (k, v) ∉ dictPop d k := by
  intro hmem
  rw [dictPop, List.mem_filter] at hmem
  simp at hmem

/-- Every event of `sendLogEvents` is a log line. -/
theorem sendLogEvents_shape (d : Option PyData) :
    ∀ ev ∈ sendLogEvents d, ∃ m, ev = IoEvent.log m := by
  intro ev hev
  rcases d with _ | (e | n) <;> simp [sendLogEvents] at hev <;> exact ⟨_, hev⟩

/-- In forced-quiet mode, `handle_api_response` emits only error reports. -/
theorem handle_api_response_quiet_events (g : GatewayState) (resp : Option Response)
    (p : HttpRequestPayload) (e : Option Str) (fatal : Bool) :
    ∀ ev ∈ (handle_api_response g resp p e fatal (some true)).events,
      ∃ m f, ev = IoEvent.error m f := by
  intro ev hev
  cases resp with
  | none =>
    cases e with
    | none => simp [handle_api_response] at hev
    | some m => cases fatal <;> simp [handle_api_response] at hev <;> exact ⟨m, _, hev⟩
  | some r =>
    rcases hp : p.expected_status_codes with _ | codes
    · simp [handle_api_response, hp] at hev
    · by_cases hm : r.status_code ∈ codes
      · simp [handle_api_response, hp, hm] at hev
      · cases fatal <;> simp [handle_api_response, hp, hm] at hev <;> exact ⟨_, _, hev⟩

/-- A quiet `make_request` call emits only log lines and error reports. -/
theorem make_request_events_shape (g : GatewayState) (args : MakeRequestArgs) (now : ℚ)
    (tr : TransportOutcome) (hq : args.quiet = true) :
    ∀ ev ∈ (make_request g args now tr).events,
      (∃ m, ev = IoEvent.log m) ∨ ∃ m f, ev = IoEvent.error m f := by
  intro ev hev
  cases tr with
  | exc m =>
    cases hre : args.raise_exceptions <;>
      simp only [make_request, hre, hq, Bool.false_eq_true, if_false, if_true,
        List.mem_append] at hev
    · rcases hev with h | h
      · exact Or.inl (sendLogEvents_shape _ ev h)
      · exact Or.inr (handle_api_response_quiet_events _ _ _ _ _ ev h)
    · exact Or.inl (sendLogEvents_shape _ ev hev)
  | ok r =>
    by_cases hmem : r.status_code ∈ computedExpected args.expected_status_codes
    · simp only [make_request, hq, hmem, if_true, List.mem_append] at hev
      rcases hev with h | h
      · exact Or.inl (sendLogEvents_shape _ ev h)
      · exact Or.inr (handle_api_response_quiet_events _ _ _ _ _ ev h)
    · cases hre : args.raise_exceptions <;>
        simp only [make_request, hre, hq, hmem, Bool.false_eq_true,
          if_false, if_true, List.mem_append] at hev
      · rcases hev with h | h
        · exact Or.inl (sendLogEvents_shape _ ev h)
        · exact Or.inr (handle_api_response_quiet_events _ _ _ _ _ ev h)
      · exact Or.inl (sendLogEvents_shape _ ev hev)

/-- Transport failure in default mode: absorbed, recorded, reported, null
return. -/
theorem make_request_exc_result (g : GatewayState) (args : MakeRequestArgs) (now : ℚ) (m : Str)
    (hraise : args.raise_exceptions = false) (hfatal : args.fatal_if_unexpected = false) :
    (make_request g args now (.exc m)).result = .ok none
    ∧ (make_request g args now (.exc m)).state.last_exception = some ("Request failed: ".data ++ m)
    ∧ IoEvent.error ("Request failed: ".data ++ m) false ∈ (make_request g args now (.exc m)).events := by
  refine ⟨?_, ?_, ?_⟩ <;>
    simp only [make_request, hraise, hfatal, handle_api_response, Bool.false_eq_true, if_false,
      List.mem_append, List.mem_singleton]
  · right
    split <;> simp

/-- Obtained response in default mode with supplied expected codes: the
response is returned and the recorded error tracks the status check. -/
theorem make_request_ok_result (g : GatewayState) (args : MakeRequestArgs) (now : ℚ) (r : Response)
    (hraise : args.raise_exceptions = false) (hfatal : args.fatal_if_unexpected = false)
    (hsup : args.expected_status_codes ≠ StatusArg.noneArg) :
    (make_request g args now (.ok r)).result = .ok (some r)
    ∧ ((make_request g args now (.ok r)).state.last_exception = none
        ↔ r.status_code ∈ computedExpected args.expected_status_codes) := by
  cases hc : args.expected_status_codes with
  | noneArg => exact absurd hc hsup
  | int n =>
    by_cases hmem : r.status_code ∈ ([n] : List Nat) <;>
      simp [make_request, hraise, hfatal, hc, handle_api_response,
        HttpRequestPayload.from_endpoint, hmem, computedExpected] <;>
      simp at hmem <;> simp [hmem]
  | list l =>
    by_cases hl : l.isEmpty
    · rw [List.isEmpty_iff] at hl
      subst hl
      by_cases hmem : r.status_code ∈ ([200] : List Nat) <;>
        simp [make_request, hraise, hfatal, hc, handle_api_response,
          HttpRequestPayload.from_endpoint, hmem, computedExpected] <;>
        simp at hmem <;> simp [hmem]
    · by_cases hmem : r.status_code ∈ l <;>
        simp [make_request, hraise, hfatal, hc, handle_api_response,
          HttpRequestPayload.from_endpoint, hmem, hl, computedExpected]

/-- The raw/JSON body choice of `make_request` matches the spec-worded
selection rule over the merged headers. -/
theorem body_selection_eq (merged : List (Str × Str)) (d : Option PyData) :
    (if (_get_header_value (some merged) Header.CONTENT_TYPE == some ContentType.FORM_URLENCODED
        || _get_header_value (some merged) Header.CONTENT_TYPE == some ContentType.OCTET_STREAM)
     then BodyEncoding.raw d else BodyEncoding.jsonBody d)
      = specBodySelection merged d := by
  rw [specBodySelection, ← get_header_value_eq_spec]
  cases hv : _get_header_value (some merged) Header.CONTENT_TYPE with
  | none => simp
  | some ct =>
    by_cases hct : ct = ContentType.FORM_URLENCODED ∨ ct = ContentType.OCTET_STREAM
    · rcases hct with h | h <;> simp [h]
    · push_neg at hct
      simp [hct.1, hct.2]

/-- C1 (amended): with `raise_exceptions=False` and `fatal_if_unexpected=False`,
a `make_request` call in which `expected_status_codes` is supplied, or in
which the transport fails, propagates no exception: it returns a value
(response or null), and a transport failure is absorbed into
`last_exception` and reported through the diagnostic sink with a null
return.  (As stated over every call the claim is false: with
`expected_status_codes` absent and a response obtained, the status
membership test raises, see the counterexample.) -/
theorem C1_no_exception_propagation (g : GatewayState) (args : MakeRequestArgs) (now : ℚ)
    (tr : TransportOutcome)
    (hraise : args.raise_exceptions = false) (hfatal : args.fatal_if_unexpected = false)
    (hok : args.expected_status_codes ≠ StatusArg.noneArg ∨ ∃ m, tr = TransportOutcome.exc m) :
    (∃ v, (make_request g args now tr).result = PyResult.ok v)
    ∧ (∀ m, tr = TransportOutcome.exc m →
        (make_request g args now tr).result = PyResult.ok none
        ∧ (make_request g args now tr).state.last_exception = some ("Request failed: ".data ++ m)
        ∧ IoEvent.error ("Request failed: ".data ++ m) false ∈ (make_request g args now tr).events) := by
  cases tr with
  | exc m =>
    obtain ⟨h1, h2, h3⟩ := make_request_exc_result g args now m hraise hfatal
    refine ⟨⟨none, h1⟩, ?_⟩
    intro m' hm
    cases hm
    exact ⟨h1, h2, h3⟩
  | ok r =>
    have hsup : args.expected_status_codes ≠ StatusArg.noneArg := by
      rcases hok with h | ⟨m, hm⟩
      · exact h
      · cases hm
    obtain ⟨h1, _⟩ := make_request_ok_result g args now r hraise hfatal hsup
    exact ⟨⟨some r, h1⟩, fun m hm => by cases hm⟩

/-- C1 witness: a default-mode call with expected status 200 whose transport
fails returns null instead of raising. -/
theorem C1_no_exception_propagation_witness :
    (make_request gDef { endpoint := "x".data, expected_status_codes := .int 200 } 0
        (.exc "boom".data)).result = PyResult.ok none := by
  have h := C1_no_exception_propagation gDef
    { endpoint := "x".data, expected_status_codes := .int 200 } 0 (.exc "boom".data)
    rfl rfl (Or.inl (by decide))
  exact (h.2 "boom".data rfl).1

/-- C1 counterexample: a default-mode call with `expected_status_codes`
absent and a 200 response obtained raises a `TypeError` out of
`handle_api_response` (membership test on `None`), so an exception does
propagate to the caller. -/
theorem C1_counterexample :
    (make_request gDef { endpoint := "x".data } 0 (.ok r200)).result
      = PyResult.raised PyExc.typeError := by decide

/-- C2 (amended): for calls that supply `expected_status_codes` (in default
non-raising mode): a response with status in the computed expected set is
returned unchanged with `has_error()` false afterwards; a response with
status outside it is still returned (not null) with `has_error()` true; a
null return occurs only on transport failure.  (As stated over every call
the claim is false: with `expected_status_codes` absent the call raises
instead of returning the obtained response, see the counterexample.) -/
theorem C2_status_validation (g : GatewayState) (args : MakeRequestArgs) (now : ℚ) (r : Response)
    (hraise : args.raise_exceptions = false) (hfatal : args.fatal_if_unexpected = false)
    (hsup : args.expected_status_codes ≠ StatusArg.noneArg) :
    (make_request g args now (.ok r)).result = PyResult.ok (some r)
    ∧ (has_error (make_request g args now (.ok r)).state = false
        ↔ r.status_code ∈ computedExpected args.expected_status_codes)
    ∧ (∀ m, (make_request g args now (.exc m)).result = PyResult.ok none) := by
  obtain ⟨h1, h2⟩ := make_request_ok_result g args now r hraise hfatal hsup
  refine ⟨h1, ?_, fun m => (make_request_exc_result g args now m hraise hfatal).1⟩
  rw [has_error]
  rw [← h2]
  cases (make_request g args now (.ok r)).state.last_exception <;> simp

/-- C2 witness: expected 200 and a 200 response: returned unchanged, no
recorded error. -/
theorem C2_status_validation_witness :
    (make_request gDef { endpoint := "x".data, expected_status_codes := .int 200 } 0
        (.ok r200)).result = PyResult.ok (some r200)
    ∧ has_error (make_request gDef { endpoint := "x".data, expected_status_codes := .int 200 } 0
        (.ok r200)).state = false := by
  have h := C2_status_validation gDef
    { endpoint := "x".data, expected_status_codes := .int 200 } 0 r200 rfl rfl (by decide)
  exact ⟨h.1, h.2.1.mpr (by decide)⟩

/-- C2 counterexample: with `expected_status_codes` absent, an obtained 404
response is not returned to the caller (the call raises instead). -/
theorem C2_counterexample :
    (make_request gDef { endpoint := "y".data } 0 (.ok r404)).result
      ≠ PyResult.ok (some r404) := by decide

/-- C3: the code contradicts the claim (and the payload field's own
documentation).  With `expected_status_codes` absent the payload field is
`None`; an obtained response is then not accepted: the membership test in
`handle_api_response` raises a `TypeError`, and `make_request`'s own
defaulting computes `{200}` rather than accept-any. -/
theorem C3_absent_codes_crash :
    (HttpRequestPayload.from_endpoint none "z".data .GET none none none none .noneArg).expected_status_codes
      = none
    ∧ (make_request gDef { endpoint := "z".data } 0 (.ok r204)).result
      = PyResult.raised PyExc.typeError
    ∧ computedExpected StatusArg.noneArg = [200] := by decide

/-- C4: for every call without files, the dispatched body encoding follows
the spec's rule over the effective Content-Type header: case-insensitive
lookup, normalisation (cut at the first `;`, trim, lower-case, absent if
missing or empty), raw/form body for form-urlencoded or octet-stream,
JSON otherwise (a missing header included). -/
theorem C4_body_encoding (g : GatewayState) (args : MakeRequestArgs) (now : ℚ)
    (tr : TransportOutcome) (hf : filesTruthy args.files = false) :
    (make_request g args now tr).dispatched.body
      = specBodySelection
          (dictMerge g.default_headers (match args.headers with | some h => h | none => []))
          args.data := by
  rw [← body_selection_eq]
  cases tr with
  | exc m =>
    cases hre : args.raise_exceptions <;>
      simp [make_request, hre, hf, HttpRequestPayload.from_endpoint, handle_api_response]
  | ok r =>
    by_cases hmem : r.status_code ∈ computedExpected args.expected_status_codes <;>
      cases hre : args.raise_exceptions <;>
      simp [make_request, hre, hf, hmem, HttpRequestPayload.from_endpoint, handle_api_response]

/-- C4 witness: an oddly cased `content-TYPE` key with value
` Application/x-www-form-urlencoded ; charset=UTF-8` normalises to
form-urlencoded and the body is dispatched raw. -/
theorem C4_body_encoding_witness :
    (make_request gDef argsFormCT 0 (.ok r200)).dispatched.body = BodyEncoding.raw none := by
  have h := C4_body_encoding gDef argsFormCT 0 (.ok r200) rfl
  exact h.trans (by decide)

/-- C5 (amended): for every call with a non-empty `files` argument the
request is dispatched as multipart with `data` as form fields alongside the
files, and the Content-Type header is stripped from the dispatched headers
only under its exact canonical key `Content-Type`; a differently cased key
is left in place (see the counterexample), not stripped whatever its case
as the claim states. -/
theorem C5_multipart_dispatch (g : GatewayState) (args : MakeRequestArgs) (now : ℚ)
    (tr : TransportOutcome) (hf : filesTruthy args.files = true) :
    (make_request g args now tr).dispatched.headers
      = dictPop (dictMerge g.default_headers (match args.headers with | some h => h | none => []))
          Header.CONTENT_TYPE
    ∧ (∀ v, (Header.CONTENT_TYPE, v) ∉ (make_request g args now tr).dispatched.headers)
    ∧ (make_request g args now tr).dispatched.body
      = BodyEncoding.multipart (dataOrEmptyDict args.data)
          (match args.files with | some fs => fs | none => []) := by
  have hh : (make_request g args now tr).dispatched.headers
      = dictPop (dictMerge g.default_headers (match args.headers with | some h => h | none => []))
          Header.CONTENT_TYPE := by
    cases tr with
    | exc m =>
      cases hre : args.raise_exceptions <;>
        simp [make_request, hre, hf, HttpRequestPayload.from_endpoint, handle_api_response]
    | ok r =>
      by_cases hmem : r.status_code ∈ computedExpected args.expected_status_codes <;>
        cases hre : args.raise_exceptions <;>
        simp [make_request, hre, hf, hmem, HttpRequestPayload.from_endpoint, handle_api_response]
  refine ⟨hh, ?_, ?_⟩
  · intro v hv
    rw [hh] at hv
    exact dictPop_no_key _ _ _ hv
  · cases tr with
    | exc m =>
      cases hre : args.raise_exceptions <;>
        simp [make_request, hre, hf, HttpRequestPayload.from_endpoint, handle_api_response]
    | ok r =>
      by_cases hmem : r.status_code ∈ computedExpected args.expected_status_codes <;>
        cases hre : args.raise_exceptions <;>
        simp [make_request, hre, hf, hmem, HttpRequestPayload.from_endpoint, handle_api_response]

/-- C5 witness: files with a canonical `Content-Type` key: the key is
stripped and the body is multipart with the data as form fields. -/
theorem C5_multipart_dispatch_witness :
    (make_request gDef argsCanonCT 0 (.ok r200)).dispatched.headers = []
    ∧ (make_request gDef argsCanonCT 0 (.ok r200)).dispatched.body
      = BodyEncoding.multipart (PyData.dict []) ["f".data] := by
  have h := C5_multipart_dispatch gDef argsCanonCT 0 (.ok r200) rfl
  exact ⟨h.1.trans (by decide), h.2.2.trans (by decide)⟩

/-- C5 counterexample: a caller-set `content-type` key (lower case) survives
into the dispatched headers of a files request, though the claim says any
caller-set Content-Type header is stripped whatever the case of its key. -/
theorem C5_counterexample :
    ("content-type".data, "application/json".data)
      ∈ (make_request gDef argsLowerCT 0 (.ok r200)).dispatched.headers := by decide

/-- C6: before dispatch the gateway sleeps exactly
`max 0 (rate_limit_delay - elapsed)` and stamps `last_request_time`, so the
stamp is `max now (previous + delay)` — at least `delay` after the previous
stamp — while a first call, or one elapsed at least `delay`, sleeps 0. -/
theorem C6_rate_limiting (g : GatewayState) (now : ℚ) :
    (g.last_request_time = none →
      (_handle_rate_limiting g now).2 = 0
      ∧ (_handle_rate_limiting g now).1.last_request_time = some now)
    ∧ (∀ t, g.last_request_time = some t →
      (_handle_rate_limiting g now).2 = max 0 (g.rate_limit_delay - (now - t))
      ∧ (_handle_rate_limiting g now).1.last_request_time = some (max now (t + g.rate_limit_delay))
      ∧ g.rate_limit_delay ≤ max now (t + g.rate_limit_delay) - t
      ∧ (g.rate_limit_delay ≤ now - t → (_handle_rate_limiting g now).2 = 0)) := by
  constructor
  · intro h
    simp [_handle_rate_limiting, h]
  · intro t ht
    by_cases hc : now - t < g.rate_limit_delay
    · have h1 : max 0 (g.rate_limit_delay - (now - t)) = g.rate_limit_delay - (now - t) := by
        rw [max_eq_right]; linarith
      have h2 : max now (t + g.rate_limit_delay) = t + g.rate_limit_delay := by
        rw [max_eq_right]; linarith
      refine ⟨?_, ?_, ?_, ?_⟩
      · simp [_handle_rate_limiting, ht, hc, h1]
      · simp only [_handle_rate_limiting, ht, hc, if_true, h2]
        congr 1
        ring
      · rw [h2]; linarith
      · intro hge; linarith
    · push_neg at hc
      have h1 : max 0 (g.rate_limit_delay - (now - t)) = 0 := by
        rw [max_eq_left]; linarith
      have h2 : max now (t + g.rate_limit_delay) = now := by
        rw [max_eq_left]; linarith
      have hnlt : ¬ (now - t < g.rate_limit_delay) := by linarith
      refine ⟨?_, ?_, ?_, ?_⟩
      · simp [_handle_rate_limiting, ht, hnlt, h1]
      · simp [_handle_rate_limiting, ht, hnlt, h2]
      · rw [h2]; linarith
      · intro _; simp [_handle_rate_limiting, ht, hnlt]

/-- C6 witness: previous stamp at 1, delay 1, call at 3/2: the sleep is
`max 0 (1 - 1/2)` and the new stamp is `max (3/2) 2`. -/
theorem C6_rate_limiting_witness :
    (_handle_rate_limiting gStamped (3/2)).2 = max 0 (1 - (3/2 - 1))
    ∧ (_handle_rate_limiting gStamped (3/2)).1.last_request_time = some (max (3/2) (1 + 1)) := by
  have h := (C6_rate_limiting gStamped (3/2)).2 1 rfl
  exact ⟨h.1, h.2.1⟩

/-- C7 (amended): `check_status_code` issues one request to the root
endpoint in quiet mode (no debug line, no details dump) and returns true
iff a non-null response was obtained — which is equivalent to the transport
producing a response, not to the status matching the expected codes: on a
status mismatch the response object is still non-null (see the
counterexample). -/
theorem C7_check_status_code (g : GatewayState) (codes : StatusArg) (now : ℚ)
    (tr : TransportOutcome) (hsup : codes ≠ StatusArg.noneArg) :
    ((check_status_code g codes now tr).2 = PyResult.ok true ↔ ∃ r, tr = TransportOutcome.ok r)
    ∧ ((check_status_code g codes now tr).2 = PyResult.ok false ↔ ∃ m, tr = TransportOutcome.exc m)
    ∧ (∀ m, IoEvent.debug m ∉ (check_status_code g codes now tr).1.events)
    ∧ (∀ t, IoEvent.properties t ∉ (check_status_code g codes now tr).1.events) := by
  have hshape := make_request_events_shape g
    { endpoint := [], expected_status_codes := codes, quiet := true } now tr rfl
  cases tr with
  | ok r =>
    obtain ⟨h1, _⟩ := make_request_ok_result g
      { endpoint := [], expected_status_codes := codes, quiet := true } now r rfl rfl hsup
    refine ⟨?_, ?_, ?_, ?_⟩
    · simp [check_status_code, h1]
    · simp [check_status_code, h1]
    · intro m hm
      rcases hshape _ hm with ⟨m', hev⟩ | ⟨m', f, hev⟩ <;> simp at hev
    · intro t ht
      rcases hshape _ ht with ⟨m', hev⟩ | ⟨m', f, hev⟩ <;> simp at hev
  | exc m =>
    obtain ⟨h1, _, _⟩ := make_request_exc_result g
      { endpoint := [], expected_status_codes := codes, quiet := true } now m rfl rfl
    refine ⟨?_, ?_, ?_, ?_⟩
    · simp [check_status_code, h1]
    · simp [check_status_code, h1]
    · intro x hx
      rcases hshape _ hx with ⟨m', hev⟩ | ⟨m', f, hev⟩ <;> simp at hev
    · intro x hx
      rcases hshape _ hx with ⟨m', hev⟩ | ⟨m', f, hev⟩ <;> simp at hev

/-- C7 witness: when the transport fails, the probe returns false. -/
theorem C7_check_status_code_witness :
    (check_status_code gDef (.int 200) 0 (.exc "down".data)).2 = PyResult.ok false := by
  have h := C7_check_status_code gDef (.int 200) 0 (.exc "down".data) (by decide)
  exact h.2.1.mpr ⟨"down".data, rfl⟩

/-- C7 counterexample: a 500 response against expected 200 still makes
`check_status_code` return true, though 500 is not in the expected set —
refuting the claimed equivalence with status matching. -/
theorem C7_counterexample :
    (check_status_code gDef (.int 200) 0 (.ok r500)).2 = PyResult.ok true
    ∧ 500 ∉ computedExpected (StatusArg.int 200) := by decide

/-- C8: the code contradicts the claim.  A gateway constructed with
`quiet=True` still gets a debug line from a `make_request` call that does
not pass `quiet` itself, because `make_request`'s own default
(`quiet=False`) is forwarded and overrides the instance flag; invoking
`handle_api_response` directly with `quiet=None` (second conjunct) shows
the instance flag would have suppressed all verbose output. -/
theorem C8_quiet_flag_overridden :
    ((make_request gQuiet { endpoint := "q".data, expected_status_codes := .int 200 } 0
        (.ok r200)).events.any isDebugEvent) = true
    ∧ (handle_api_response gQuiet (some r200) payloadQ none false none).events = [] := by decide

/-- C9: the extracted error message follows the spec's rule exactly: a
mapping body prefers `message`, falls back to `error`, then `HTTP <status>`;
a failed parse falls back to the raw text, or `HTTP <status>` for an empty
body. -/
theorem C9_error_message_extraction (r : Response) :
    _extract_error_message r = specErrorMessage r := by
  obtain ⟨s, t, j⟩ := r
  rcases j with _ | (es | _)
  · by_cases ht : t = [] <;>
      simp [_extract_error_message, specErrorMessage, ht, List.isEmpty_iff]
  · cases h1 : lookupKey es "message".data <;> cases h2 : lookupKey es "error".data <;>
      simp [_extract_error_message, specErrorMessage, h1, h2]
  · rfl

/-- C10 (amended): for a present and NON-EMPTY base_url the joined url is the
base with trailing slashes stripped, one `/`, and the endpoint with leading
slashes stripped — no slash on either side of the join point and nothing but
slashes removed from either part; with base_url absent the url is the
endpoint verbatim.  (A present but empty base_url is treated as absent by
the code's truthiness test, against the claim's letter: see the
counterexample.) -/
theorem C10_endpoint_join (b endpoint : Str) (hb : b ≠ []) :
    (HttpRequestPayload.from_endpoint (some b) endpoint .GET none none none none .noneArg).url
      = rstripSlash b ++ '/' :: lstripSlash endpoint
    ∧ (∀ c, (rstripSlash b).getLast? = some c → c ≠ '/')
    ∧ (∀ c, (lstripSlash endpoint).head? = some c → c ≠ '/')
    ∧ (∃ k, b = rstripSlash b ++ List.replicate k '/')
    ∧ (∃ m, endpoint = List.replicate m '/' ++ lstripSlash endpoint)
    ∧ (HttpRequestPayload.from_endpoint none endpoint .GET none none none none .noneArg).url
      = endpoint := by
  have hbe : b.isEmpty = false := by
    cases b with
    | nil => exact absurd rfl hb
    | cons a l => rfl
  refine ⟨?_, rstripSlash_getLast b, lstripSlash_head endpoint,
    rstripSlash_decomp b, lstripSlash_decomp endpoint, rfl⟩
  simp [HttpRequestPayload.from_endpoint, hbe]

/-- C10 witness: a trailing-slash base and a leading-slash endpoint join
with a single slash. -/
theorem C10_endpoint_join_witness :
    (HttpRequestPayload.from_endpoint (some "https://a.example/".data) "/v1".data
        .GET none none none none .noneArg).url
      = "https://a.example/v1".data := by
  have h := C10_endpoint_join "https://a.example/".data "/v1".data (by decide)
  exact h.1.trans (by decide)

/-- C10 counterexample: with a present but empty base_url the code yields
the endpoint verbatim, not the spec-worded join of the pair. -/
theorem C10_counterexample :
    (HttpRequestPayload.from_endpoint (some []) "x".data .GET none none none none .noneArg).url
      = "x".data
    ∧ specJoinUrl (some []) "x".data = "/x".data
    ∧ ("x".data : Str) ≠ "/x".data := by decide
